import Mathlib

/-!
# Verification of the AutoMech subtask-partitioning layer

Shallow embedding of `src/automech/cli/_subtasks_setup.py` (and the contract its
companion `_subtasks_run_adhoc.py` relies on).  Python functions become Lean
functions; Python exceptions become `Option`-valued failure (`none` = an
exception propagates); Python `None` values become the inner `Option`.

The pyparsing grammars of the source are embedded at token granularity:
a task line is split on whitespace, and a `key=value` field token is a token
containing exactly one `=` with nonempty key and value — this matches the
source grammar `word + "=" + word` with `word = Word(printables, exclude "=")`
on every line whose `=` characters occur only inside such tokens.
-/

namespace AutoMech

/-- Characters treated as whitespace by the tokenizer (Python `str.split`). -/
def isWs (c : Char) : Bool := c.isWhitespace

/-- Accumulator-passing splitter: cuts a character list at every delimiter
recognised by `p`, keeping empty chunks. -/
def splitOnPredGo (p : Char → Bool) (acc : List Char) : List Char → List (List Char)
  | [] => [acc.reverse]
  | c :: cs =>
    if p c then acc.reverse :: splitOnPredGo p [] cs
    else splitOnPredGo p (c :: acc) cs

/-- Split a character list at every delimiter recognised by `p`. -/
def splitOnPred (p : Char → Bool) (cs : List Char) : List (List Char) :=
  splitOnPredGo p [] cs

/-- Strip leading and trailing whitespace (Python `str.strip`). -/
def trimChars (cs : List Char) : List Char :=
  ((cs.dropWhile isWs).reverse.dropWhile isWs).reverse

/-- Whitespace-tokenize a line (Python `str.split()`): empty tokens dropped. -/
def tokenize (s : String) : List String :=
  ((splitOnPred isWs s.data).filter (fun t => ¬ t.isEmpty)).map String.mk

/-- Numeric value of a digit run. -/
def digitsToNat (cs : List Char) : Nat :=
  cs.foldl (fun acc c => acc * 10 + (c.toNat - 48)) 0

/-- Parse a nonempty all-digit character run (the pyparsing `ppc.integer`). -/
def parseNatAll (cs : List Char) : Option Nat :=
  if ¬ cs.isEmpty ∧ cs.all Char.isDigit then some (digitsToNat cs) else none

/-- `b.isPrefixOf a`-style test on strings (Python `str.startswith`). -/
def strStarts (p s : String) : Bool := p.data.isPrefixOf s.data

/-- Drop the first character of a string (Python `s[1:]`). -/
def strDropOne (s : String) : String := String.mk (s.data.drop 1)

/-- Python `int(s)`: optional sign, then a nonempty digit run. -/
def pyInt (s : String) : Option Int :=
  let cs := trimChars s.data
  match cs with
  | '-' :: rest => (parseNatAll rest).map (fun n => -(n : Int))
  | '+' :: rest => (parseNatAll rest).map (fun n => (n : Int))
  | _ => (parseNatAll cs).map (fun n => (n : Int))

/-- Sign-splitting helper for `pyFloatInt`. -/
def pySign (cs : List Char) : Int × List Char :=
  match cs with
  | '-' :: rest => (-1, rest)
  | '+' :: rest => (1, rest)
  | _ => (1, cs)

/-- Python `int(float(s))` for plain decimal strings (the only form the theory
table uses, e.g. `"4.0"`): the value is truncated toward zero, so the result is
the signed integer part.  Exponent forms and `inf`/`nan` are not modelled and
count as failures. -/
def pyFloatInt (s : String) : Option Int :=
  let sc := pySign (trimChars s.data)
  let ip := sc.2.takeWhile Char.isDigit
  match sc.2.dropWhile Char.isDigit with
  | [] => if ip.isEmpty then none else some (sc.1 * (digitsToNat ip : Int))
  | '.' :: fp =>
    if fp.all Char.isDigit ∧ ¬ (ip.isEmpty ∧ fp.isEmpty) then
      some (sc.1 * (digitsToNat ip : Int))
    else none
  | _ => none

/-- `more_itertools.unique_everseen`: de-duplicate keeping first occurrences. -/
def uniqueEverseenGo [DecidableEq α] (seen : List α) : List α → List α
  | [] => []
  | x :: xs =>
    if x ∈ seen then uniqueEverseenGo seen xs
    else x :: uniqueEverseenGo (x :: seen) xs

/-- De-duplicate a list, preserving first-seen order. -/
def uniqueEverseen [DecidableEq α] (l : List α) : List α := uniqueEverseenGo [] l

/-- One entry of the index-series grammar (`entry = integer ^ integer "-" integer`,
longest match, so a chunk containing `-` is a range): returns the denoted index
list, with `x-y` expanded inclusively (empty when `y < x`, like Python `range`).
The chunk is expected outer-trimmed. -/
def parseEntry (cs : List Char) : Option (List Nat) :=
  let a := trimChars (cs.takeWhile (fun c => c ≠ '-'))
  match cs.dropWhile (fun c => c ≠ '-') with
  | [] => (parseNatAll a).map (fun n => [n])
  | _ :: b =>
    (parseNatAll a).bind fun s =>
      (parseNatAll (trimChars b)).map fun t => List.range' s (t + 1 - s)

/-- Greedy entry collection: pyparsing `DelimitedList` without `parseAll` stops
silently at the first chunk that fails to parse. -/
def parseEntries : List (List Char) → List (List Nat)
  | [] => []
  | c :: rest =>
    match parseEntry (trimChars c) with
    | some e => e :: parseEntries rest
    | none => []

/-- `parse_index_series` (src/automech/cli/_subtasks_setup.py:583): parse a
comma/newline-separated list of indices with inclusive `x-y` ranges, flatten in
source order and de-duplicate keeping first occurrences.  `none` models the
`ParseException` raised when not even one entry can be parsed. -/
def parse_index_series_chars (cs : List Char) : Option (List Nat) :=
  let chunks := splitOnPred (fun c => c = ',' ∨ c = '\n') cs
  let entries := parseEntries chunks
  if entries.isEmpty then none
  else some (uniqueEverseen entries.flatten)

/-- String-level wrapper for `parse_index_series`. -/
def parse_index_series (s : String) : Option (List Nat) :=
  parse_index_series_chars s.data

/-- Split a token into a `key=value` field: nonempty key, one `=`, nonempty
value with no further `=` (the grammar `word + "=" + word` applied to a whole
token). -/
def splitField (w : String) : Option (String × String) :=
  let k := w.data.takeWhile (fun c => c ≠ '=')
  match w.data.dropWhile (fun c => c ≠ '=') with
  | '=' :: v =>
    if ¬ k.isEmpty ∧ ¬ v.isEmpty ∧ v.all (fun c => c ≠ '=') then
      some (String.mk k, String.mk v)
    else none
  | _ => none

/-- `parse_task_fields` (src/automech/cli/_subtasks_setup.py:274): collect the
inline `key=value` fields of a task line.  The pyparsing expression
`Suppress(...) + DelimitedList(field, delim=WordEnd())` skips to the first
field occurrence and then collects consecutive fields; it raises a
`ParseException` (modelled as `none`) when the line contains no field at all. -/
def parse_task_fields (line : String) : Option (List (String × String)) :=
  let toks := tokenize line
  let run := (toks.dropWhile (fun w => (splitField w).isNone)).takeWhile
    (fun w => (splitField w).isSome)
  let fds := run.filterMap splitField
  if fds.isEmpty then none else some fds

/-- Python `dict(fields)[k]` on the collected field pairs: duplicate keys are
overwritten in insertion order, so the last occurrence wins. -/
def fieldGet (fds : List (String × String)) (k : String) : Option String :=
  ((fds.filter (fun p => p.1 = k)).getLast?).map (fun p => p.2)

/-- Python `field_dct.get(k, dflt)`. -/
def fieldGetD (fds : List (String × String)) (k dflt : String) : String :=
  (fieldGet fds k).getD dflt

/-- Python `dict.get` on a string-keyed mapping (keys are unique). -/
def dctGet (d : List (String × α)) (k : String) : Option α :=
  (d.find? (fun p => p.1 = k)).map (fun p => p.2)

/-- Python `d[k] = v` on an insertion-ordered mapping: overwrite in place if
the key is present, else append. -/
def dctSet : List (String × α) → String → α → List (String × α)
  | [], k, v => [(k, v)]
  | p :: rest, k, v =>
    if p.1 = k then (k, v) :: rest else p :: dctSet rest k v

/-- `parse_task_name` (src/automech/cli/_subtasks_setup.py:262): first
whitespace token of the line, or the second one when the first is the literal
tag `spc` or `ts`.  `none` models the `IndexError` on a missing token. -/
def parse_task_name (line : String) : Option String :=
  match tokenize line with
  | [] => none
  | t :: rest => if t = "spc" ∨ t = "ts" then rest.head? else some t

/-- The parsed theory.dat table (`parse_theory_dat`,
src/automech/cli/_subtasks_setup.py:355): level name to `key=value` field
mapping.  The claims quantify over theory tables, so the table is taken in
parsed form; values are the raw strings of the file (e.g. `"4.0"`). -/
abbrev TheoryDct := List (String × List (String × String))

/-- `parse_task_memory` (src/automech/cli/_subtasks_setup.py:287).  Result
`none` = an exception propagates (no fields on the line, unknown `runlvl`,
missing or non-numeric `mem`); `some none` = the Python function returns
`None`; `some (some m)` = it returns `m`. -/
def parse_task_memory (line : String) (theory : TheoryDct) : Option (Option Int) :=
  (parse_task_fields line).bind fun fds =>
    match fieldGet fds "runlvl" with
    | none => some none
    | some lvl =>
      (dctGet theory lvl).bind fun lvlDct =>
        (dctGet lvlDct "mem").bind fun s =>
          (pyFloatInt s).map (fun m => some m)

/-- `parse_task_nprocs` (src/automech/cli/_subtasks_setup.py:306): an inline
`nprocs=` field is read first (raising on a non-numeric value), and an
`runlvl=` field then overwrites it with the theory-table value — the last
assignment wins, so the theory lookup takes precedence when both are present. -/
def parse_task_nprocs (line : String) (theory : TheoryDct) : Option (Option Int) :=
  (parse_task_fields line).bind fun fds =>
    let inline : Option (Option Int) :=
      match fieldGet fds "nprocs" with
      | none => some none
      | some v => (pyFloatInt v).map (fun n => some n)
    inline.bind fun nprocs0 =>
      match fieldGet fds "runlvl" with
      | none => some nprocs0
      | some lvl =>
        (dctGet theory lvl).bind fun lvlDct =>
          (dctGet lvlDct "nprocs").bind fun s =>
            (pyFloatInt s).map (fun n => some n)

/-- `SAMP_TASKS` (src/automech/cli/_subtasks_setup.py:30). -/
def SAMP_TASKS : List String := ["conf_samp"]

/-- `sample_count_from_inchi` (src/automech/cli/_subtasks_setup.py:388) after
the torsional count has been computed: `1` when there are no torsions, else
`min(a + b * c^ntors, d)`.  The torsional count itself is produced by the
external `automol` library (not part of this repository), so callers abstract
it as a function of the InChI string. -/
def sample_count_from_ntors (ntors : Nat) (param_a param_b param_c param_d : Int) : Int :=
  if ntors = 0 then 1 else min (param_a + param_b * param_c ^ ntors) param_d

/-- `parse_subtasks_nworkers` (src/automech/cli/_subtasks_setup.py:328).
`species` is the `inchi` column of the parsed species.csv, in file order;
`ntorsOf` abstracts the external torsion count (see `sample_count_from_ntors`).
The per-species replicated counts are produced only for lines starting with
`spc` whose task name is in `SAMP_TASKS` or whose `cnf_range` value starts
with `n`; every other line gets a uniform `1` per subtask.  Note that the
replicated list has one entry per species.csv row, not per subtask key. -/
def parse_subtasks_nworkers (ntorsOf : String → Nat) (task_line : String)
    (species : List String) (nsub : Nat) : Option (List Int) :=
  if strStarts "spc" task_line then
    (parse_task_name task_line).bind fun task_name =>
      (parse_task_fields task_line).bind fun fds =>
        if task_name ∈ SAMP_TASKS ∨ strStarts "n" (fieldGetD fds "cnf_range" "") then
          (pyInt (strDropOne (fieldGetD fds "cnf_range" "n100"))).map fun nmax =>
            species.map fun chi =>
              max (sample_count_from_ntors (ntorsOf chi) 12 1 3 nmax - 1) 1
        else some (List.replicate nsub (1 : Int))
  else some (List.replicate nsub (1 : Int))

/-- A subtask key: the `all` sentinel (a string), a species index, a
`(pes index, channel index)` pair — or, after a YAML round trip, the
2-element list that PyYAML's `safe_load` returns for a serialized pair
(`list2` never arises during setup itself). -/
inductive Key where
  | str (s : String)
  | idx (n : Nat)
  | pair (p c : Nat)
  | list2 (p c : Nat)
deriving DecidableEq, Repr

/-- The parsed run.dat (`parse_run_dat`): block name to block content. -/
abbrev RunDct := List (String × String)

/-- One line of the `pes` block: `<pes index>: <channel range spec>`; expands
to the `(pes, channel)` pairs in channel order. -/
def parsePesLine (cs : List Char) : Option (List (Nat × Nat)) :=
  let left := cs.takeWhile (fun c => c ≠ ':')
  match cs.dropWhile (fun c => c ≠ ':') with
  | ':' :: rest =>
    (parseNatAll (trimChars left)).bind fun p =>
      (parse_index_series_chars rest).map fun cidxs => cidxs.map (fun c => (p, c))
  | _ => none

/-- `subtask_keys_from_run_dict` (src/automech/cli/_subtasks_setup.py:485):
`None` subtask type gives the single `all` sentinel; `spc` parses the spc
block as an index series; `pes` expands each pes-block line to channel pairs
and de-duplicates keeping first occurrences.  Any other subtask type falls off
the end of the Python function (returning `None`, which makes the caller
raise), modelled as `none`. -/
def subtask_keys_from_run_dict (run_dct : RunDct) (subtask_type : Option String) :
    Option (List Key) :=
  match subtask_type with
  | none => some [Key.str "all"]
  | some "spc" =>
    (dctGet run_dct "spc").bind fun blk =>
      (parse_index_series blk).map (fun l => l.map Key.idx)
  | some "pes" =>
    (dctGet run_dct "pes").bind fun blk =>
      let lines := (splitOnPred (fun c => c = '\n') blk.data).filter
        (fun l => ¬ (trimChars l).isEmpty)
      (lines.mapM parsePesLine).map fun ls =>
        (uniqueEverseen ls.flatten).map (fun pc => Key.pair pc.1 pc.2)
  | some _ => none

/-- `task_lines_from_run_dict` (src/automech/cli/_subtasks_setup.py:519):
stripped lines of `task_type`'s block; for the `els` block only lines starting
with `spc` (species subtasks) or `ts` (pes subtasks), any other subtask type
failing the assertion. -/
def task_lines_from_run_dict (run_dct : RunDct) (task_type : String)
    (subtask_type : Option String) : Option (List String) :=
  (dctGet run_dct task_type).bind fun block =>
    let lines := (splitOnPred (fun c => c = '\n') block.data).map
      (fun l => String.mk (trimChars l))
    if task_type = "els" then
      match subtask_type with
      | some "pes" => some (lines.filter (fun l => strStarts "ts" l))
      | some "spc" => some (lines.filter (fun l => strStarts "spc" l))
      | _ => none
    else some lines

/-- The `Task` record (src/automech/cli/_subtasks_setup.py:54).  `mem` and
`nprocs` are `Option Int` because the Python fields hold `None` when the line
carries no `runlvl`/`nprocs` information. -/
structure Task where
  name : String
  line : String
  mem : Option Int
  nprocs : Option Int
  subtask_keys : List Key
  subtask_nworkers : List Int
deriving DecidableEq, Repr

/-- `determine_task_list` (src/automech/cli/_subtasks_setup.py:214): the group
subtask keys are computed once, then every task line of the group's block
becomes one `Task`.  The theory table and species column stand for the parsed
`theory.dat`/`species.csv` carried in the source's `file_dct`. -/
def determine_task_list (ntorsOf : String → Nat) (run_dct : RunDct)
    (theory : TheoryDct) (species : List String) (task_type : String)
    (key_type : Option String) : Option (List Task) :=
  (subtask_keys_from_run_dict run_dct key_type).bind fun keys =>
    (task_lines_from_run_dict run_dct task_type key_type).bind fun lines =>
      lines.mapM fun line =>
        (parse_task_name line).bind fun name =>
          (parse_task_memory line theory).bind fun mem =>
            (parse_task_nprocs line theory).bind fun nprocs =>
              (parse_subtasks_nworkers ntorsOf line species keys.length).map
                fun nworkers =>
                  { name := name, line := line, mem := mem, nprocs := nprocs,
                    subtask_keys := keys, subtask_nworkers := nworkers }

/-- Whether a key is a `(pes, channel)` pair (a Python tuple). -/
def Key.isPair : Key → Bool
  | Key.pair _ _ => true
  | _ => false

/-- Effect of writing a `Task` to YAML and reading it back, per key.
`write_task_list` (src/automech/cli/_subtasks_setup.py:541) passes the
`dataclasses.asdict` form to `yaml.safe_dump`, whose `SafeRepresenter`
serializes a Python tuple as a plain YAML sequence; `read_task_list`
(src/automech/cli/_subtasks_setup.py:552) uses `yaml.safe_load`, which returns
every sequence as a Python list.  So a pair key comes back as a 2-element
list; strings, ints and `None` survive unchanged. -/
def yamlRoundTripKey : Key → Key
  | Key.pair a b => Key.list2 a b
  | k => k

/-- `read_task_list(write_task_list(tasks))` restricted to a single record:
all scalar fields round-trip exactly (including `None` mem/nprocs), while
each subtask key is subject to the tuple-to-list conversion. -/
def read_write_round_trip (t : Task) : Task :=
  { t with subtask_keys := t.subtask_keys.map yamlRoundTripKey }

/-- Python `"{:02d}".format(n)` for a natural number: zero-pad to width 2. -/
def pad2 (n : Nat) : String :=
  if n < 10 then "0" ++ toString n else toString n

/-- `_subtask_directory` (src/automech/cli/_subtasks_setup.py:145): directory
name encoding of a subtask key — the string itself for the `all` sentinel, a
zero-padded 2-digit integer for a species index, two such joined by `_` for a
pes/channel pair.  `none` models the assertion failure on any other shape. -/
def _subtask_directory : Key → Option String
  | Key.str s => some s
  | Key.idx n => some (pad2 n)
  | Key.pair p c => some (pad2 p ++ "_" ++ pad2 c)
  | Key.list2 _ _ => none

/-- `_subtask_block` (src/automech/cli/_subtasks_setup.py:155): the narrowed
subtask-dimension block for one key — `"<pes>: <channel>"` for a pair,
`"<index>"` for an int; anything else fails the assertion. -/
def _subtask_block : Key → Option String
  | Key.pair p c => some (toString p ++ ": " ++ toString c)
  | Key.idx n => some (toString n)
  | _ => none

/-- The per-task directory `out_path/<group_id>_<task index :02d>_<task name>`
(src/automech/cli/_subtasks_setup.py:185); `group_id` is the stringified group
number. -/
def task_dir_path (out_path group_id : String) (task_key : Nat)
    (task_name : String) : String :=
  out_path ++ "/" ++ group_id ++ "_" ++ pad2 task_key ++ "_" ++ task_name

/-- The materialized subtask directory path
`out_path/<group_id>_<task index :02d>_<task name>/<key encoding>`
(src/automech/cli/_subtasks_setup.py:185-191): a pure function of the five
inputs, with no randomness or timestamps. -/
def subtask_dir_path (out_path group_id : String) (task_key : Nat)
    (task_name : String) (key : Key) : Option String :=
  (_subtask_directory key).map fun d =>
    task_dir_path out_path group_id task_key task_name ++ "/" ++ d

/-- `without_comments` (src/automech/cli/_subtasks_setup.py:574): drop
everything from `#` to the end of each line (the regex `#.*$`, multiline). -/
def without_comments (s : String) : String :=
  String.intercalate "\n"
    (((splitOnPred (fun c => c = '\n') s.data).map
      (fun l => l.takeWhile (fun c => c ≠ '#'))).map String.mk)

/-- `format_block` (src/automech/cli/_subtasks_setup.py:564): strip leading
spaces from each line (the regex `^\ *`, multiline), then re-indent by four
spaces (`textwrap.indent`, which leaves whitespace-only lines alone). -/
def format_block (s : String) : String :=
  String.intercalate "\n"
    (((splitOnPred (fun c => c = '\n') s.data).map
      (fun l => l.dropWhile (fun c => c = ' '))).map
      (fun l => if (trimChars l).isEmpty then String.mk l
                else "    " ++ String.mk l))

/-- Right-fold concatenation of a string list (the Python `run_dat += ...`
accumulation in `form_run_dat`). -/
def strConcat : List String → String
  | [] => ""
  | s :: rest => s ++ strConcat rest

/-- `form_run_dat` (src/automech/cli/_subtasks_setup.py:442): serialize the
blocks present in the run dictionary, in the fixed order
`input, spc, pes, els, thermo, kin`, each re-indented between `<key>` and
`end <key>` delimiter lines. -/
def form_run_dat (run_dct : RunDct) : String :=
  strConcat ((["input", "spc", "pes", "els", "thermo", "kin"].filterMap fun k =>
    (dctGet run_dct k).map fun content =>
      k ++ "\n" ++ format_block content ++ "\nend " ++ k ++ "\n\n"))

/-- Token-level model of `_extract_path`'s grammar
(src/automech/cli/_subtasks_setup.py:472): scan for the first token equal to
the key, followed by `=`, and return the next token. -/
def find_field_value (key : String) : List String → Option String
  | a :: b :: c :: rest =>
    if a = key ∧ b = "=" then some c
    else find_field_value key (b :: c :: rest)
  | _ => none

/-- `_extract_path` (src/automech/cli/_subtasks_setup.py:472): value of the
`<key>_prefix = <path>` field of the (comment-stripped) input block; `none`
models the `ParseException` when the field is absent. -/
def _extract_path (key : String) (inp_block : String) : Option String :=
  find_field_value (key ++ "_prefix") (tokenize (without_comments inp_block))

/-- One path resolution step of `filesystem_paths_from_run_dict`: the
explicit override when given (`if save_path is None else save_path`), else
the value extracted from the input block. -/
def resolve_path (run_dct : RunDct) (over : Option String) (key : String) :
    Option String :=
  match over with
  | some s => some s
  | none => (dctGet run_dct "input").bind (fun b => _extract_path key b)

/-- `filesystem_paths_from_run_dict` (src/automech/cli/_subtasks_setup.py:456):
the save and run paths are the explicit overrides when given, else the values
extracted verbatim from the input block — no absolutization happens anywhere. -/
def filesystem_paths_from_run_dict (run_dct : RunDct)
    (save_path run_path : Option String) : Option (String × String) :=
  match resolve_path run_dct save_path "save", resolve_path run_dct run_path "run" with
  | some s, some r => some (s, r)
  | _, _ => none

/-- The mutation `main` performs on the parsed run specification
(src/automech/cli/_subtasks_setup.py:92-96): resolve the save/run paths, then
assign `run_dct["input"] = "run_prefix = <run>\nsave_prefix = <save>"` —
the input block is replaced wholesale by these two lines. -/
def update_input_block (run_dct : RunDct) (save_path run_path : Option String) :
    Option RunDct :=
  (filesystem_paths_from_run_dict run_dct save_path run_path).map fun pr =>
    dctSet run_dct "input" ("run_prefix = " ++ pr.2 ++ "\nsave_prefix = " ++ pr.1)

/-- Filesystem side effects of the setup phase, as an observable trace.
Structured payloads (the task list, the CSV table, the input-file bundle)
stand for the text the external `yaml`/`pandas` serializers would emit. -/
inductive Effect where
  | mkdir (path : String)
  | writeYamlTasks (path : String) (tasks : List Task)
  | writeInputFiles (path : String) (files : List (String × String))
  | writeCsv (path : String) (table : List (String × List (Key × String)))
deriving Repr

/-- `"_".join([task_type] + ([] if key_type is None else [key_type]))`
(src/automech/cli/_subtasks_setup.py:165-166). -/
def type_keys_str (task_type : String) (key_type : Option String) : String :=
  match key_type with
  | none => task_type
  | some k => task_type ++ "_" ++ k

/-- One iteration of the inner subtask loop of `setup_subtask_group`
(src/automech/cli/_subtasks_setup.py:189-200): make the subtask directory,
narrow the run dictionary to this key (unless it is the `all` sentinel), and
write the derived input files; returns the CSV cell and the effects. -/
def setup_cell (file_dct : List (String × String)) (task_run_dct : RunDct)
    (key_type : Option String) (task_path : String) (key : Key) :
    Option ((Key × String) × List Effect) :=
  (_subtask_directory key).bind fun dir =>
    let spath := task_path ++ "/" ++ dir
    let sub_run : Option RunDct :=
      if key = Key.str "all" then some task_run_dct
      else
        (_subtask_block key).map fun blk =>
          match key_type with
          | some kt => dctSet task_run_dct kt blk
          | none => task_run_dct
    sub_run.map fun srd =>
      ((key, spath),
        [Effect.mkdir spath,
         Effect.writeInputFiles spath
           (dctSet file_dct "run.dat" (form_run_dat srd))])

/-- One iteration of the task loop of `setup_subtask_group`
(src/automech/cli/_subtasks_setup.py:183-201): restrict the run dictionary to
the group's blocks, substitute this task's single line for the task block, and
process every subtask key; returns the CSV row and the effects. -/
def setup_task_row (file_dct : List (String × String)) (run_dct : RunDct)
    (block_keys : List String) (key_type : Option String) (task_type : String)
    (out_path group_id : String) (task_key : Nat) (task : Task) :
    Option ((String × List (Key × String)) × List Effect) :=
  let task_path := task_dir_path out_path group_id task_key task.name
  let task_run_dct :=
    dctSet (run_dct.filter (fun p => p.1 ∈ block_keys)) task_type task.line
  (task.subtask_keys.mapM (setup_cell file_dct task_run_dct key_type task_path)).map
    fun cells =>
      ((task.name, cells.map (fun c => c.1)),
        (cells.map (fun c => c.2)).flatten)

/-- `setup_subtask_group` (src/automech/cli/_subtasks_setup.py:126): when
`group_id` is `None` the function returns the joined type string immediately,
before any task resolution or filesystem access (lines 164-166) — so the
effect trace is empty and the result holds for every run dictionary, even one
on which `determine_task_list` would fail.  Otherwise it resolves the task
list, writes it to `<group_id>.yaml`, materializes one directory per
task × subtask key, and writes the path table to `<group_id>.csv`. -/
def setup_subtask_group (ntorsOf : String → Nat) (run_dct : RunDct)
    (file_dct : List (String × String)) (theory : TheoryDct)
    (species : List String) (task_type : String) (key_type : Option String)
    (group_id : Option Nat) (out_path : String) :
    Option ((String ⊕ List (String × List (Key × String))) × List Effect) :=
  match group_id with
  | none => some (Sum.inl (type_keys_str task_type key_type), [])
  | some gid =>
    let gid_s := toString gid
    let block_keys :=
      "input" :: (match key_type with | none => ["pes", "spc"] | some k => [k])
    (determine_task_list ntorsOf run_dct theory species task_type key_type).bind
      fun tasks =>
        ((tasks.enum).mapM fun it =>
            setup_task_row file_dct run_dct block_keys key_type task_type
              out_path gid_s it.1 it.2).map
          fun rows =>
            (Sum.inr (rows.map (fun r => r.1)),
              Effect.writeYamlTasks (out_path ++ "/" ++ gid_s ++ ".yaml") tasks
                :: ((rows.map (fun r => r.2)).flatten
                  ++ [Effect.writeCsv (out_path ++ "/" ++ gid_s ++ ".csv")
                        (rows.map (fun r => r.1))]))

/-! ## Helper lemmas -/

/-- Updating one key of an insertion-ordered mapping leaves every other key's
lookup unchanged. -/
theorem dctGet_dctSet_of_ne {α : Type} (d : List (String × α)) (k k' : String)
    (v : α) (h : k' ≠ k) : dctGet (dctSet d k v) k' = dctGet d k' := by
  have hkk : ¬ (k = k') := fun he => h he.symm
  induction d with
  | nil => simp [dctSet, dctGet, List.find?, hkk]
  | cons p rest ih =>
    by_cases hp : p.1 = k
    · have hpk : ¬ (p.1 = k') := by rw [hp]; exact hkk
      simp [dctSet, hp, dctGet, List.find?, hkk, hpk]
    · by_cases hp' : p.1 = k'
      · simp [dctSet, hp, dctGet, List.find?, hp', h]
      · simp only [dctSet, if_neg hp]
        simp only [dctGet, List.find?] at ih ⊢
        simp [hp', ih]

/-- A non-pair key survives the YAML round trip unchanged. -/
theorem yamlRoundTripKey_eq_of_not_pair (k : Key) (h : Key.isPair k = false) :
    yamlRoundTripKey k = k := by
  cases k <;> simp_all [Key.isPair, yamlRoundTripKey]

/-- A key list without pair keys survives the YAML round trip unchanged. -/
theorem map_yamlRoundTripKey_eq_self (l : List Key)
    (h : ∀ k ∈ l, Key.isPair k = false) : l.map yamlRoundTripKey = l := by
  induction l with
  | nil => rfl
  | cons x xs ih =>
    rw [List.map_cons, yamlRoundTripKey_eq_of_not_pair x (h x (by simp)),
      ih (fun k hk => h k (by simp [hk]))]

/-! ## Claim theorems -/

/-- C7: `parse_index_series` flattens comma/newline entries in source order
with inclusive `x-y` ranges expanded, and removes duplicates keeping the first
occurrence: the two example inputs of the spec produce exactly the stated
index lists. -/
theorem c7_parse_index_series_examples :
    parse_index_series "1,3, 5-9  \n  11,13-14\n23\n 27-29"
        = some [1, 3, 5, 6, 7, 8, 9, 11, 13, 14, 23, 27, 28, 29] ∧
      parse_index_series "2,2,1,3-4,3" = some [2, 1, 3, 4] := by
  exact ⟨by decide, by decide⟩

/-- C1: the claimed invariant `|subtask_keys| = |subtask_nworkers|` fails on
the code.  With an spc block selecting two species indices and a species.csv
with three rows, the sampling task produced by `determine_task_list` has two
subtask keys but three worker counts (one per species.csv row): the consumer
`_subtasks_run_adhoc.py` zips the two lists with `strict=True`, so this task
would crash at dispatch. -/
theorem c1_sampling_nworkers_length_mismatch :
    (determine_task_list (fun _ => 0)
          [("input", "run_prefix = ./r\nsave_prefix = ./s"), ("spc", "1-2"),
           ("els", "spc conf_samp runlvl=lvl1")]
          [("lvl1", [("mem", "4.0"), ("nprocs", "8")])]
          ["InChI=A", "InChI=B", "InChI=C"] "els" (some "spc")).map
        (fun ts => ts.map (fun t => (t.subtask_keys.length, t.subtask_nworkers.length)))
        = some [(2, 3)] ∧
      (2 : Nat) ≠ 3 := by
  exact ⟨by decide, by decide⟩

/-- C2: when a task line carries both an inline `nprocs=` field and a
`runlvl=` field, `parse_task_nprocs` returns the theory table's nprocs value
for the level (cast through float then int), independent of the inline value;
the inline value determines the result only when `runlvl` is absent. -/
theorem c2_runlvl_overrides_inline_nprocs :
    ∀ (line : String) (theory : TheoryDct) (fds : List (String × String))
      (v : String) (nv : Int),
      parse_task_fields line = some fds →
      fieldGet fds "nprocs" = some v →
      pyFloatInt v = some nv →
      ((∀ (lvl : String) (lvlDct : List (String × String)) (s : String) (n : Int),
          fieldGet fds "runlvl" = some lvl →
          dctGet theory lvl = some lvlDct →
          dctGet lvlDct "nprocs" = some s →
          pyFloatInt s = some n →
          parse_task_nprocs line theory = some (some n)) ∧
        (fieldGet fds "runlvl" = none →
          parse_task_nprocs line theory = some (some nv))) := by
  intro line theory fds v nv hf hn hv
  constructor
  · intro lvl lvlDct s n hr hl hs hp
    simp [parse_task_nprocs, hf, hn, hv, hr, hl, hs, hp]
  · intro hr
    simp [parse_task_nprocs, hf, hn, hv, hr]

/-- Witness for C2: on `spc conf_opt runlvl=lvl1 nprocs=4` with the theory
table mapping `lvl1` to `nprocs=8.0`, the resolved value is 8 (the theory
value), and without `runlvl` the inline 4 wins. -/
theorem c2_witness :
    parse_task_nprocs "spc conf_opt runlvl=lvl1 nprocs=4"
        [("lvl1", [("mem", "4.0"), ("nprocs", "8.0")])] = some (some 8) ∧
      parse_task_nprocs "spc conf_opt nprocs=4"
        [("lvl1", [("mem", "4.0"), ("nprocs", "8.0")])] = some (some 4) := by
  constructor
  · exact (c2_runlvl_overrides_inline_nprocs _ _ [("runlvl", "lvl1"), ("nprocs", "4")]
      "4" 4 (by decide) (by decide) (by decide)).1 "lvl1"
      [("mem", "4.0"), ("nprocs", "8.0")] "8.0" 8 (by decide) (by decide)
      (by decide) (by decide)
  · exact (c2_runlvl_overrides_inline_nprocs _ _ [("nprocs", "4")]
      "4" 4 (by decide) (by decide) (by decide)).2 (by decide)

/-- C5 counterexample: a task line carrying no `key=value` field at all makes
the pyparsing field grammar raise (`Suppress(...) + DelimitedList(field)`
finds no field to skip to), so `parse_task_memory` and `parse_task_nprocs`
fail with an exception (`none`) instead of succeeding with null as claimed. -/
theorem c5_fieldless_line_counterexample :
    parse_task_memory "init_geom" [] = none ∧
      parse_task_nprocs "init_geom" [] = none := by
  exact ⟨by decide, by decide⟩

/-- C5 amended: for every task line that carries at least one `key=value`
field but neither `runlvl` nor `nprocs`, the resolver succeeds and returns
null (`None`) for both mem and nprocs. -/
theorem c5_no_levels_null_amended :
    ∀ (line : String) (theory : TheoryDct) (fds : List (String × String)),
      parse_task_fields line = some fds →
      fieldGet fds "runlvl" = none →
      fieldGet fds "nprocs" = none →
      parse_task_memory line theory = some none ∧
        parse_task_nprocs line theory = some none := by
  intro line theory fds hf hr hn
  constructor
  · simp [parse_task_memory, hf, hr]
  · simp [parse_task_nprocs, hf, hr, hn]

/-- Witness for C5: `spc init_geom cnf_range=n50` has a field dictionary with
neither `runlvl` nor `nprocs`, and both resolvers return null. -/
theorem c5_witness :
    parse_task_memory "spc init_geom cnf_range=n50" [("lvl1", [("mem", "4.0")])]
        = some none ∧
      parse_task_nprocs "spc init_geom cnf_range=n50" [("lvl1", [("mem", "4.0")])]
        = some none :=
  c5_no_levels_null_amended _ _ [("cnf_range", "n50")] (by decide) (by decide)
    (by decide)

/-- C3: the sample count is exactly 1 for zero torsions independent of the
parameters; for `t ≥ 1` it is `min(a + b·c^t, d)`; and for positive
parameters with `c ≥ 2`, `d > a`, and any `t ≥ 1` at least
`⌈log_c((d-a)/b)⌉` — stated as `Nat.clog c (⌈(d-a)/b⌉)` with the ceiling
division `(d-a+(b-1))/b` — the count is exactly the cap `d`. -/
theorem c3_sample_count :
    (∀ (a b c d : Int), sample_count_from_ntors 0 a b c d = 1) ∧
      (∀ (a b c d : Int) (t : Nat), 1 ≤ t →
        sample_count_from_ntors t a b c d = min (a + b * c ^ t) d) ∧
      (∀ (a b c d t : Nat), 0 < a → 0 < b → 2 ≤ c → a < d → 1 ≤ t →
        Nat.clog c ((d - a + (b - 1)) / b) ≤ t →
        sample_count_from_ntors t a b c d = d) := by
  refine ⟨fun a b c d => by simp [sample_count_from_ntors], ?_, ?_⟩
  · intro a b c d t ht
    have ht0 : t ≠ 0 := by omega
    simp [sample_count_from_ntors, ht0]
  · intro a b c d t ha hb hc had ht hclog
    have h1 : (d - a + (b - 1)) / b ≤ c ^ t :=
      (Nat.le_pow_iff_clog_le (by omega)).mpr hclog
    have h2 : d - a ≤ b * c ^ t := by
      by_contra hlt
      push_neg at hlt
      have hid : (c ^ t + 1) * b = b * c ^ t + b := by ring
      have hle : (c ^ t + 1) * b ≤ d - a + (b - 1) := by omega
      have := (Nat.le_div_iff_mul_le hb).mpr hle
      omega
    have h3 : (d : Int) ≤ (a : Int) + (b : Int) * (c : Int) ^ t := by
      have hn : d ≤ a + b * c ^ t := by omega
      exact_mod_cast hn
    have ht0 : t ≠ 0 := by omega
    simp [sample_count_from_ntors, ht0, min_eq_right h3]

/-- Witness for C3: with the source defaults `a=12, b=1, c=3, d=100`,
`⌈log_3 88⌉ = 5`, and at `t = 5` torsions the sample count is exactly the
cap 100. -/
theorem c3_witness :
    Nat.clog 3 ((100 - 12 + (1 - 1)) / 1) ≤ 5 ∧
      sample_count_from_ntors 5 12 1 3 100 = 100 := by
  have hclog : Nat.clog 3 ((100 - 12 + (1 - 1)) / 1) ≤ 5 :=
    (Nat.le_pow_iff_clog_le (by norm_num)).mp (by norm_num)
  refine ⟨hclog, ?_⟩
  exact_mod_cast c3_sample_count.2.2 12 1 3 100 5 (by norm_num) (by norm_num)
    (by norm_num) (by norm_num) (by norm_num) hclog

/-- C4 counterexample: the claim omits the source's `line.startswith("spc")`
guard.  The line `conf_samp cnf_range=n15` has its task name in the sampling
set and a `cnf_range` starting with `n`, so the claim predicts the replicated
count `max(sample_count - 1, 1) = 14` for a one-torsion species, but the code
returns the uniform count 1 because the line does not start with `spc`. -/
theorem c4_nonspc_sampling_counterexample :
    parse_subtasks_nworkers (fun _ => 1) "conf_samp cnf_range=n15" ["X"] 1
        = some [1] ∧
      ["X"].map (fun chi =>
          max (sample_count_from_ntors ((fun _ : String => 1) chi) 12 1 3 15 - 1) 1)
        = [14] ∧
      ([1] : List Int) ≠ [14] := by
  exact ⟨by decide, by decide, by decide⟩

/-- C4 amended: per-species replicated worker counts
`max(sample_count - 1, 1)` are produced exactly when the task line starts
with `spc` AND (its name is a sampling task or its `cnf_range` value starts
with `n`); every other task line gets a uniform count of 1 per subtask. -/
theorem c4_nworkers_amended :
    ∀ (ntorsOf : String → Nat) (line : String) (species : List String) (nsub : Nat),
      (strStarts "spc" line = false →
        parse_subtasks_nworkers ntorsOf line species nsub
          = some (List.replicate nsub (1 : Int))) ∧
      (∀ (name : String) (fds : List (String × String)),
        strStarts "spc" line = true →
        parse_task_name line = some name →
        parse_task_fields line = some fds →
        ¬ (name ∈ SAMP_TASKS ∨ strStarts "n" (fieldGetD fds "cnf_range" "")) →
        parse_subtasks_nworkers ntorsOf line species nsub
          = some (List.replicate nsub (1 : Int))) ∧
      (∀ (name : String) (fds : List (String × String)) (nmax : Int),
        strStarts "spc" line = true →
        parse_task_name line = some name →
        parse_task_fields line = some fds →
        (name ∈ SAMP_TASKS ∨ strStarts "n" (fieldGetD fds "cnf_range" "")) →
        pyInt (strDropOne (fieldGetD fds "cnf_range" "n100")) = some nmax →
        parse_subtasks_nworkers ntorsOf line species nsub
          = some (species.map fun chi =>
              max (sample_count_from_ntors (ntorsOf chi) 12 1 3 nmax - 1) 1)) := by
  intro ntorsOf line species nsub
  refine ⟨?_, ?_, ?_⟩
  · intro hspc
    simp [parse_subtasks_nworkers, hspc]
  · intro name fds hspc hn hf hcond
    simp [parse_subtasks_nworkers, hspc, hn, hf, hcond]
  · intro name fds nmax hspc hn hf hcond hmax
    simp [parse_subtasks_nworkers, hspc, hn, hf, hcond, hmax]

/-- Witness for C4: a sampling `spc` line with `cnf_range=n20` on a 2-torsion
species gives `min(12 + 3^2, 20) - 1 = 19` workers, and a non-`spc` line gets
the uniform count. -/
theorem c4_witness :
    parse_subtasks_nworkers (fun _ => 2) "spc conf_samp cnf_range=n20" ["A"] 1
        = some [19] ∧
      parse_subtasks_nworkers (fun _ => 2) "ktp_task x=1" ["A"] 2
        = some [1, 1] := by
  constructor
  · exact (c4_nworkers_amended (fun _ => 2) "spc conf_samp cnf_range=n20" ["A"] 1).2.2
      "conf_samp" [("cnf_range", "n20")] 20 (by decide) (by decide) (by decide)
      (Or.inl (by decide)) (by decide)
  · exact (c4_nworkers_amended (fun _ => 2) "ktp_task x=1" ["A"] 2).1 (by decide)

/-- C6 counterexample: PyYAML's `safe_dump` writes a Python tuple as a plain
YAML sequence and `safe_load` reads every sequence back as a list, so a task
with a `(pes, channel)` pair key does not round-trip field-for-field: the
pair comes back as a 2-element list. -/
theorem c6_pair_key_counterexample :
    read_write_round_trip
        ⟨"find_ts", "ts find_ts runlvl=lvl1", some 4, some 8, [Key.pair 1 2], [1]⟩
      ≠ ⟨"find_ts", "ts find_ts runlvl=lvl1", some 4, some 8, [Key.pair 1 2], [1]⟩ := by
  decide

/-- C6 amended: reading back a written task list is the identity for every
task whose subtask keys contain no pair key (in particular for the `all`
sentinel and species-index keys), and the scalar fields — including null
mem/nprocs, preserved as null — survive unconditionally. -/
theorem c6_round_trip_amended :
    ∀ t : Task, (∀ k ∈ t.subtask_keys, Key.isPair k = false) →
      read_write_round_trip t = t ∧
        (read_write_round_trip t).mem = t.mem ∧
        (read_write_round_trip t).nprocs = t.nprocs := by
  intro t h
  refine ⟨?_, rfl, rfl⟩
  cases t with
  | mk name line mem nprocs keys nworkers =>
    simp only [read_write_round_trip]
    simp only [Task.mk.injEq, and_true, true_and]
    exact map_yamlRoundTripKey_eq_self keys (by simpa using h)

/-- Witness for C6: a task with integer keys and null mem/nprocs round-trips
to a field-for-field equal record. -/
theorem c6_witness :
    read_write_round_trip
        ⟨"init_geom", "init_geom", none, none, [Key.idx 0, Key.idx 1], [1, 1]⟩
      = ⟨"init_geom", "init_geom", none, none, [Key.idx 0, Key.idx 1], [1, 1]⟩ :=
  (c6_round_trip_amended
    ⟨"init_geom", "init_geom", none, none, [Key.idx 0, Key.idx 1], [1, 1]⟩
    (by decide)).1

/-- C8: the materialized subtask directory path is the pure function
`out/<group_id>_<task index padded to 2 digits>_<task name>/<key encoding>`
of exactly the five inputs — integer keys encode as zero-padded 2-digit
integers, pair keys as the two encodings joined by `_`, and the `all`
sentinel as itself — so identical inputs always give identical paths. -/
theorem c8_subtask_path_deterministic :
    ∀ (out group_id : String) (task_key : Nat) (task_name : String),
      (∀ n, subtask_dir_path out group_id task_key task_name (Key.idx n)
          = some (out ++ "/" ++ group_id ++ "_" ++ pad2 task_key ++ "_"
              ++ task_name ++ "/" ++ pad2 n)) ∧
      (∀ p c, subtask_dir_path out group_id task_key task_name (Key.pair p c)
          = some (out ++ "/" ++ group_id ++ "_" ++ pad2 task_key ++ "_"
              ++ task_name ++ "/" ++ (pad2 p ++ "_" ++ pad2 c))) ∧
      subtask_dir_path out group_id task_key task_name (Key.str "all")
          = some (out ++ "/" ++ group_id ++ "_" ++ pad2 task_key ++ "_"
              ++ task_name ++ "/" ++ "all") := by
  intro out g i name
  exact ⟨fun n => rfl, fun p c => rfl, rfl⟩

/-- C9 counterexample: the code does not rewrite path fields in place — it
replaces the whole input block with exactly two prefix lines, dropping any
other content (`key_b = foo` here), and it keeps the original, possibly
relative path strings verbatim (no absolutization), contradicting both the
"rest unchanged" and the "resolved absolute, never the original" parts. -/
theorem c9_input_block_replaced_counterexample :
    update_input_block
        [("input", "run_prefix = ./rel_run\nsave_prefix = ./rel_save\nkey_b = foo")]
        none none
      = some [("input", "run_prefix = ./rel_run\nsave_prefix = ./rel_save")] ∧
      ("run_prefix = ./rel_run\nsave_prefix = ./rel_save" : String)
        ≠ "run_prefix = ./rel_run\nsave_prefix = ./rel_save\nkey_b = foo" := by
  exact ⟨by decide, by decide⟩

/-- C9 amended: setup mutates the run specification only in its input block,
which is replaced wholesale by the two lines `run_prefix = R` and
`save_prefix = S`, where R and S are the override paths when given and
otherwise the values extracted verbatim (not absolutized) from the original
input block; every other block's lookup is unchanged, and any run.dat formed
from a dictionary carrying this input block serializes it first, verbatim. -/
theorem c9_input_block_amended :
    ∀ (run_dct : RunDct) (so ro : Option String) (sp rp : String),
      filesystem_paths_from_run_dict run_dct so ro = some (sp, rp) →
      (update_input_block run_dct so ro
          = some (dctSet run_dct "input"
              ("run_prefix = " ++ rp ++ "\nsave_prefix = " ++ sp))) ∧
        (∀ k, k ≠ "input" →
          dctGet (dctSet run_dct "input"
              ("run_prefix = " ++ rp ++ "\nsave_prefix = " ++ sp)) k
            = dctGet run_dct k) ∧
        (∀ s, so = some s → sp = s) ∧
        (∀ r, ro = some r → rp = r) ∧
        (∀ d : RunDct,
          dctGet d "input"
              = some ("run_prefix = " ++ rp ++ "\nsave_prefix = " ++ sp) →
          ∃ rest, form_run_dat d
            = ("input" ++ "\n"
                ++ format_block ("run_prefix = " ++ rp ++ "\nsave_prefix = " ++ sp)
                ++ "\nend " ++ "input" ++ "\n\n") ++ rest) := by
  intro run_dct so ro sp rp h
  refine ⟨?_, ?_, ?_, ?_, ?_⟩
  · simp [update_input_block, h]
  · intro k hk
    exact dctGet_dctSet_of_ne _ _ _ _ hk
  · intro s hso
    have hsv : resolve_path run_dct so "save" = some s := by rw [hso]; rfl
    rcases hr2 : resolve_path run_dct ro "run" with _ | r
    · rw [filesystem_paths_from_run_dict, hsv, hr2] at h
      simp at h
    · rw [filesystem_paths_from_run_dict, hsv, hr2] at h
      simp at h
      exact h.1.symm
  · intro r hro
    have hrv : resolve_path run_dct ro "run" = some r := by rw [hro]; rfl
    rcases hs2 : resolve_path run_dct so "save" with _ | s
    · rw [filesystem_paths_from_run_dict, hs2, hrv] at h
      simp at h
    · rw [filesystem_paths_from_run_dict, hs2, hrv] at h
      simp at h
      exact h.2.symm
  · intro d hd
    refine ⟨strConcat ((["spc", "pes", "els", "thermo", "kin"].filterMap fun k =>
      (dctGet d k).map fun content =>
        k ++ "\n" ++ format_block content ++ "\nend " ++ k ++ "\n\n")), ?_⟩
    simp [form_run_dat, List.filterMap_cons, hd, strConcat]

/-- Witness for C9: with no overrides, the input block of a concrete run
dictionary is replaced by the two prefix lines carrying the values extracted
from the original block. -/
theorem c9_witness :
    update_input_block [("input", "x = 1\nrun_prefix = A\nsave_prefix = B")]
        none none
      = some (dctSet [("input", "x = 1\nrun_prefix = A\nsave_prefix = B")]
          "input" ("run_prefix = " ++ "A" ++ "\nsave_prefix = " ++ "B")) :=
  (c9_input_block_amended _ none none "B" "A" (by decide)).1

/-- C10: calling `setup_subtask_group` with `group_id = None` returns
immediately with the joined type string — `task_type` alone when `key_type`
is `None`, else `task_type ++ "_" ++ key_type` — with an empty effect trace
(no directories created, no files written) and no task resolution: the
result holds for every run dictionary, including ones on which
`determine_task_list` would fail. -/
theorem c10_group_id_none_early_return :
    ∀ (ntorsOf : String → Nat) (run_dct : RunDct)
      (file_dct : List (String × String)) (theory : TheoryDct)
      (species : List String) (task_type : String) (key_type : Option String)
      (out_path : String),
      setup_subtask_group ntorsOf run_dct file_dct theory species task_type
          key_type none out_path
        = some (Sum.inl (type_keys_str task_type key_type), []) ∧
      type_keys_str task_type none = task_type ∧
      (∀ k, type_keys_str task_type (some k) = task_type ++ "_" ++ k) := by
  intro ntorsOf run_dct file_dct theory species task_type key_type out_path
  exact ⟨rfl, rfl, fun k => rfl⟩

end AutoMech
